import Mathlib

/-!
Shallow embedding of `change-timeseries.py`: a pipeline that loads (or
synthesizes) a single-column table of timestamps, normalizes it to a
datetime-typed column, derives eight calendar columns, and renders
frequency-count charts of the derived categorical columns.

Python/pandas structures are modelled as follows:
* `pd.Timestamp` values become the `DateTime` structure; calendar
  arithmetic (`pd.date_range` steps, `dt.dayofweek`, `dt.quarter`) is
  implemented with the standard proleptic-Gregorian civil-calendar
  conversions on `Nat`.
* `pd.DataFrame` becomes a list of named, dtype-tagged columns of cells.
* Python exceptions become the `PyError` inductive; functions that can
  raise return `Except PyError _`.
* `matplotlib` panels become `Panel` values; `display` returns the list
  of panels it would render instead of drawing them.
-/

namespace ChangeTimeseries

/-! ## Character-list utilities (model of Python string splitting) -/

/-- Split a character list on a separator character; like Python's
`str.split(sep)`, always returns at least one (possibly empty) piece. -/
def splitOnChar (sep : Char) : List Char → List (List Char)
  | [] => [[]]
  | c :: cs =>
    let r := splitOnChar sep cs
    if c = sep then [] :: r
    else
      match r with
      | [] => [[c]]
      | h :: t => (c :: h) :: t

/-- Join strings with a separator. -/
def joinWith (sep : String) : List String → String
  | [] => ""
  | [s] => s
  | s :: rest => s ++ sep ++ joinWith sep rest

/-- Render a list of strings the way the Python error messages embed a
list into an f-string (quoting of the elements is not modelled). -/
def showListOfStrings (xs : List String) : String :=
  "[" ++ joinWith (", ") xs ++ "]"

/-- Numeral digit value of a character. -/
def digitVal (c : Char) : Nat := c.toNat - 48

/-- Parse a non-empty all-digit character list as a natural number. -/
def parseNatChars (cs : List Char) : Option Nat :=
  if cs.isEmpty then none
  else if cs.all (fun c => c.isDigit) then
    some (cs.foldl (fun a c => a * 10 + digitVal c) 0)
  else none

/-! ## Calendar model (proleptic Gregorian, as used by pandas Timestamps) -/

/-- A timestamp value (`pd.Timestamp`), at second granularity: the
script never uses sub-second components. -/
structure DateTime where
  year : Nat
  month : Nat
  day : Nat
  hour : Nat
  minute : Nat
  second : Nat
deriving DecidableEq, Repr

/-- Gregorian leap-year rule. -/
def isLeap (y : Nat) : Bool :=
  (y % 4 == 0 && y % 100 != 0) || y % 400 == 0

/-- Days in a month of a given year. -/
def daysInMonth (y m : Nat) : Nat :=
  if m = 2 then (if isLeap y then 29 else 28)
  else if m = 4 ∨ m = 6 ∨ m = 9 ∨ m = 11 then 30
  else 31

/-- Days elapsed since 0000-03-01 of the proleptic Gregorian calendar
(the civil-from-date direction of the standard conversion). -/
def daysFromCivil (y m d : Nat) : Nat :=
  let y2 := if m ≤ 2 then y - 1 else y
  let era := y2 / 400
  let yoe := y2 % 400
  let mp := if 2 < m then m - 3 else m + 9
  let doy := (153 * mp + 2) / 5 + (d - 1)
  let doe := yoe * 365 + yoe / 4 - yoe / 100 + doy
  era * 146097 + doe

/-- Inverse of `daysFromCivil`: year, month and day from a count of days
since 0000-03-01. -/
def civilFromDays (z : Nat) : Nat × Nat × Nat :=
  let era := z / 146097
  let doe := z % 146097
  let yoe := (doe - doe / 1460 + doe / 36524 - doe / 146096) / 365
  let y := yoe + era * 400
  let doy := doe - (365 * yoe + yoe / 4 - yoe / 100)
  let mp := (5 * doy + 2) / 153
  let d := doy - (153 * mp + 2) / 5 + 1
  let m := if mp < 10 then mp + 3 else mp - 9
  if m ≤ 2 then (y + 1, m, d) else (y, m, d)

/-- Pandas `Series.dt.dayofweek`: Monday = 0 through Sunday = 6.
0000-03-01 is a Wednesday, hence the offset 2. -/
def dayofweek (t : DateTime) : Nat :=
  (daysFromCivil t.year t.month t.day + 2) % 7

/-- Pandas `Series.dt.quarter`: quarter of the year from the month. -/
def quarterOf (t : DateTime) : Nat :=
  (t.month - 1) / 3 + 1

/-- Full English weekday names, indexed Monday = 0 through Sunday = 6,
as produced by `Series.dt.day_name()`. -/
def dayNames : List String :=
  [("Monday"), ("Tuesday"), ("Wednesday"), ("Thursday"),
   ("Friday"), ("Saturday"), ("Sunday")]

/-- Pandas `Series.dt.day_name()` for one timestamp. -/
def day_name (t : DateTime) : String :=
  dayNames.getD (dayofweek t) ""

/-- Python slicing `s[:3]` on a string. -/
def take3 (s : String) : String :=
  String.mk (s.data.take 3)

/-- Absolute second count of a timestamp (seconds since 0000-03-01). -/
def toSeconds (t : DateTime) : Nat :=
  daysFromCivil t.year t.month t.day * 86400
    + t.hour * 3600 + t.minute * 60 + t.second

/-- Timestamp from an absolute second count. -/
def ofSeconds (s : Nat) : DateTime :=
  let c := civilFromDays (s / 86400)
  let rem := s % 86400
  ⟨c.1, c.2.1, c.2.2, rem / 3600, rem % 3600 / 60, rem % 60⟩

/-- Advance a timestamp by a number of seconds. -/
def addSeconds (t : DateTime) (n : Nat) : DateTime :=
  ofSeconds (toSeconds t + n)

/-! ## Timestamp and frequency parsing

`pd.to_datetime` / `pd.Timestamp` accept many textual formats; the
pipeline only ever feeds it values of the forms `YYYY-MM-DD` and
`YYYY-MM-DD HH:MM:SS`, and the model parses exactly those, rejecting
out-of-range calendar components the way pandas does. -/

/-- Parse `HH:MM:SS`. -/
def parseClock (cs : List Char) : Option (Nat × Nat × Nat) :=
  match (splitOnChar ':' cs).map parseNatChars with
  | [some h, some mi, some s] =>
    if h < 24 && mi < 60 && s < 60 then some (h, mi, s) else none
  | _ => none

/-- Parse `YYYY-MM-DD`, validating the calendar ranges. -/
def parseDatePart (cs : List Char) : Option (Nat × Nat × Nat) :=
  match (splitOnChar '-' cs).map parseNatChars with
  | [some y, some m, some d] =>
    if 1 ≤ m && m ≤ 12 && 1 ≤ d && d ≤ daysInMonth y m then
      some (y, m, d)
    else none
  | _ => none

/-- Parse a timestamp string (date with optional clock). -/
def parseDateTime (s : String) : Option DateTime :=
  match splitOnChar ' ' s.data with
  | [dp] =>
    (parseDatePart dp).map (fun p => ⟨p.1, p.2.1, p.2.2, 0, 0, 0⟩)
  | [dp, tp] =>
    match parseDatePart dp, parseClock tp with
    | some p, some q => some ⟨p.1, p.2.1, p.2.2, q.1, q.2.1, q.2.2⟩
    | _, _ => none
  | _ => none

/-- Seconds denoted by a pandas frequency-alias unit. -/
def freqUnitSeconds (u : String) : Option Nat :=
  if u == ("h") || u == ("H") then some 3600
  else if u == ("min") || u == ("T") then some 60
  else if u == ("s") || u == ("S") then some 1
  else if u == ("D") || u == ("d") then some 86400
  else if u == ("W") then some 604800
  else none

/-- Parse a pandas frequency string such as `14h`: an optional positive
multiplier followed by a unit alias. -/
def parseFreq (s : String) : Option Nat :=
  let digits := s.data.takeWhile (fun c => c.isDigit)
  let unit := s.data.dropWhile (fun c => c.isDigit)
  let n := if digits.isEmpty then some 1 else parseNatChars digits
  match n, freqUnitSeconds (String.mk unit) with
  | some k, some sec => if k = 0 then none else some (k * sec)
  | _, _ => none

/-! ## Tabular model (`pd.DataFrame`) -/

/-- A value held in a dataframe cell. The pipeline only ever stores raw
strings, timestamps and small integers. -/
inductive Cell where
  | cstr (s : String)
  | cdt (t : DateTime)
  | cnat (n : Nat)
deriving DecidableEq, Repr

/-- The pandas dtype of a column, as far as the script inspects it
(`pd.api.types.is_datetime64_any_dtype`). -/
inductive Dtype where
  | dobject
  | ddatetime
  | dint
deriving DecidableEq, Repr

/-- One named dataframe column. -/
structure Col where
  name : String
  dtype : Dtype
  values : List Cell
deriving DecidableEq, Repr

/-- A dataframe: an ordered list of named columns. -/
structure DataFrame where
  cols : List Col
deriving DecidableEq, Repr

/-- The column names, in order (`df.columns`). -/
def DataFrame.colNames (df : DataFrame) : List String :=
  df.cols.map (fun c => c.name)

/-- Look up a column by name (`df[name]`); first match wins. -/
def DataFrame.getCol (df : DataFrame) (name : String) : Option Col :=
  df.cols.find? (fun c => c.name == name)

/-- Membership test `name in df.columns`. -/
def DataFrame.hasCol (df : DataFrame) (name : String) : Bool :=
  df.colNames.contains name

/-- Row count of a dataframe (all columns of a well-formed dataframe
have this length). -/
def DataFrame.nRows (df : DataFrame) : Nat :=
  match df.cols with
  | [] => 0
  | c :: _ => c.values.length

/-- Every column has the common row count. -/
def DataFrame.wellFormed (df : DataFrame) : Prop :=
  ∀ c ∈ df.cols, c.values.length = df.nRows

/-- Python exceptions raised (or propagated) by the script. -/
inductive PyError where
  | fileNotFoundError (msg : String)
  | valueError (msg : String)
  | keyError (msg : String)
  | typeError (msg : String)
  | indexError (msg : String)
deriving DecidableEq, Repr

/-! ## Message constants (from the source's f-strings) -/

/-- The canonical timestamp column name. -/
def tsName : String := "timestamp"

def fileNotFoundMsg (path : String) : String :=
  "Файл не найден: " ++ path

def readCsvErrHead : String := "Ошибка чтения CSV: "

def oneColumnMsg : String :=
  "Ожидался ровно один столбец во входном CSV."

def createErrHead : String :=
  "Ошибка при создании строковых временных меток: "

def missingTsMsg : String :=
  "Отсутствует обязательный столбец timestamp."

def convErrHead : String :=
  "Ошибка преобразования в datetime: "

def notDatetimeMsg : String :=
  "Столбец timestamp должен быть формата datetime."

def missingColsMsg (missing : List String) : String :=
  "Отсутствуют обязательные столбцы: " ++ showListOfStrings missing

def invalidKindsMsg (notAllowed : List String) : String :=
  "Недопустимые типы графиков: " ++ showListOfStrings notAllowed

/-- Messages produced inside `pd.date_range` (abbreviated). -/
def invalidStartMsg : String := "could not convert string to Timestamp"

def invalidFreqMsg : String := "invalid frequency"

def negPeriodsMsg : String :=
  "Number of samples must be non-negative"

def unparseableMsg : String := "could not convert value to datetime"

def indexOutOfRangeMsg : String := "list index out of range"

/-! ## `load_dataframe_from_file` -/

/-- The filesystem visible to the script: path to file contents. -/
abbrev FileSystem := List (String × String)

/-- Lines of a file, with blank lines dropped (pandas'
`skip_blank_lines` default). -/
def nonEmptyLines (content : String) : List (List Char) :=
  (splitOnChar '\n' content.data).filter (fun l => !l.isEmpty)

/-- Comma-separated fields of one line. -/
def fieldsOf (l : List Char) : List (List Char) :=
  splitOnChar ',' l

/-- Model of `pd.read_csv` on a text: the first non-blank line is the
header and fixes the column count; a row with more fields than the
header is a parse error; a missing trailing field is modelled as an
empty string. Dtype inference is not modelled: the pipeline's input
domain is timestamp text, which pandas keeps as object (string) dtype. -/
def read_csv (content : String) : Except String DataFrame :=
  match nonEmptyLines content with
  | [] => .error ("No columns to parse from file")
  | header :: rows =>
    if rows.any (fun r => (fieldsOf header).length < (fieldsOf r).length) then
      .error ("Error tokenizing data")
    else
      .ok ⟨(List.range (fieldsOf header).length).map (fun j =>
        ⟨String.mk ((fieldsOf header).getD j []), .dobject,
          (rows.map fieldsOf).map
            (fun r => Cell.cstr (String.mk (r.getD j [])))⟩)⟩

/-- Function `load_dataframe_from_file`: existence check, CSV read (any reader
failure re-raised as `ValueError`), single-column check, rename to
`timestamp`. -/
def load_dataframe_from_file (fs : FileSystem) (path : String) :
    Except PyError DataFrame :=
  match fs.lookup path with
  | none => .error (.fileNotFoundError (fileNotFoundMsg path))
  | some content =>
    match read_csv content with
    | .error m => .error (.valueError (readCsvErrHead ++ m))
    | .ok df =>
      if df.cols.length ≠ 1 then .error (.valueError oneColumnMsg)
      else .ok ⟨df.cols.map (fun c => { c with name := tsName })⟩

/-! ## `create_periodic_dataframe` -/

/-- Model of `pd.date_range(start=…, periods=…, freq=…)`: parse the
start point and the frequency, reject a negative sample count, and
produce the arithmetic sequence of timestamps. -/
def date_range (start : String) (periods : Int) (freq : String) :
    Except String (List DateTime) :=
  match parseDateTime start with
  | none => .error invalidStartMsg
  | some t0 =>
    match parseFreq freq with
    | none => .error invalidFreqMsg
    | some step =>
      if periods < 0 then .error negPeriodsMsg
      else .ok ((List.range periods.toNat).map
        (fun i => addSeconds t0 (i * step)))

/-- Function `create_periodic_dataframe`: wraps `date_range` in a `try`/`except`
that prints a message and implicitly returns `None` on any failure.
The second component collects what the function printed. -/
def create_periodic_dataframe (start : String) (periods : Int)
    (freq : String) : Option DataFrame × List String :=
  match date_range start periods freq with
  | .ok ts => (some ⟨[⟨tsName, .ddatetime, ts.map Cell.cdt⟩]⟩, [])
  | .error m => (none, [createErrHead ++ m])

/-! ## `convert_to_datetime` -/

/-- Model of `pd.to_datetime` on one cell: timestamps pass through, strings are
parsed. Numeric cells (epoch interpretation in pandas) are outside the
modelled input domain and fail. -/
def toDatetimeCell : Cell → Option DateTime
  | .cdt t => some t
  | .cstr s => parseDateTime s
  | .cnat _ => none

/-- Column-wise `pd.to_datetime(…, errors="raise")` over a column's values:
all-or-nothing, failing at the first unparseable value. -/
def to_datetime_vals : List Cell → Except String (List Cell)
  | [] => .ok []
  | v :: vs =>
    match toDatetimeCell v with
    | none => .error unparseableMsg
    | some t =>
      match to_datetime_vals vs with
      | .ok ds => .ok (Cell.cdt t :: ds)
      | .error m => .error m

/-- Model of `result["timestamp"] = pd.to_datetime(result["timestamp"], …)`:
every column named `timestamp` is re-typed to datetime; other columns
are kept unchanged. -/
def convertCols : List Col → Except String (List Col)
  | [] => .ok []
  | c :: cs =>
    let step : Except String Col :=
      if c.name == tsName then
        match to_datetime_vals c.values with
        | .ok vs => .ok (⟨c.name, .ddatetime, vs⟩ : Col)
        | .error m => .error m
      else .ok c
    match step with
    | .error m => .error m
    | .ok c2 =>
      match convertCols cs with
      | .error m => .error m
      | .ok cs2 => .ok (c2 :: cs2)

/-- Function `convert_to_datetime`: `KeyError` when the `timestamp` column is
absent, otherwise parse the column on a copy, re-raising any parse
failure as `ValueError`. -/
def convert_to_datetime (df : DataFrame) : Except PyError DataFrame :=
  match df.getCol tsName with
  | none => .error (.keyError missingTsMsg)
  | some _ =>
    match convertCols df.cols with
    | .ok cs => .ok ⟨cs⟩
    | .error m => .error (.valueError (convErrHead ++ m))

/-! ## `extract_parts` -/

/-- The timestamp stored in a cell of a datetime64 column (other cell
shapes do not occur in such a column; a dummy epoch value keeps the
accessor total, mirroring the `.dt` accessor's precondition). -/
def cellDT : Cell → DateTime
  | .cdt t => t
  | _ => ⟨1970, 1, 1, 0, 0, 0⟩

/-- The eight derived columns built by `extract_parts` from the
timestamp column's values, in source order; `is_weekend` is computed
from the freshly built `weekday` column via `isin([5, 6]).astype(int)`. -/
def extractResult (ts : List Cell) : DataFrame :=
  let weekday := ts.map (fun v => Cell.cnat (dayofweek (cellDT v)))
  ⟨[⟨("day"), .dint, ts.map (fun v => Cell.cnat (cellDT v).day)⟩,
    ⟨("month"), .dint, ts.map (fun v => Cell.cnat (cellDT v).month)⟩,
    ⟨("year"), .dint, ts.map (fun v => Cell.cnat (cellDT v).year)⟩,
    ⟨("hour"), .dint, ts.map (fun v => Cell.cnat (cellDT v).hour)⟩,
    ⟨("quarter"), .dint, ts.map (fun v => Cell.cnat (quarterOf (cellDT v)))⟩,
    ⟨("weekday"), .dint, weekday⟩,
    ⟨("weekday_name"), .dobject,
      ts.map (fun v => Cell.cstr (take3 (day_name (cellDT v))))⟩,
    ⟨("is_weekend"), .dint,
      weekday.map (fun v =>
        Cell.cnat (if v == Cell.cnat 5 || v == Cell.cnat 6 then 1 else 0))⟩]⟩

/-- Function `extract_parts`: `KeyError` when the `timestamp` column is absent,
`TypeError` when it is not datetime-typed, otherwise the new dataframe
of the eight derived columns (the timestamp column is not carried
over). -/
def extract_parts (df : DataFrame) : Except PyError DataFrame :=
  match df.getCol tsName with
  | none => .error (.keyError missingTsMsg)
  | some c =>
    if c.dtype = Dtype.ddatetime then .ok (extractResult c.values)
    else .error (.typeError notDatetimeMsg)

/-! ## `display` -/

/-- One rendered chart: the value counts of the chosen column, the
chart kind and the panel title. -/
structure Panel where
  counts : List (Cell × Nat)
  kind : String
  title : String
deriving DecidableEq, Repr

/-- The chart kinds accepted by `DataFrame.plot`. -/
def allowed_kinds : List String :=
  [("line"), ("bar"), ("barh"), ("kde"), ("density"), ("area"),
   ("hist"), ("box"), ("pie"), ("scatter"), ("hexbin")]

/-- Occurrences of a value in a list of cells. -/
def countOcc (xs : List Cell) (v : Cell) : Nat :=
  (xs.filter (fun x => x == v)).length

/-- The distinct values of a list, in first-seen order. -/
def dedupFirst : List Cell → List Cell
  | [] => []
  | v :: vs =>
    let r := dedupFirst vs
    if r.contains v then r else v :: r

/-- Insert into a count-descending list, keeping it count-descending. -/
def insertByCount (p : Cell × Nat) : List (Cell × Nat) → List (Cell × Nat)
  | [] => [p]
  | q :: qs => if q.2 < p.2 then p :: q :: qs else q :: insertByCount p qs

/-- Pandas `Series.value_counts()`: distinct values with their multiplicities,
in descending-count order. -/
def value_counts (xs : List Cell) : List (Cell × Nat) :=
  ((dedupFirst xs).map (fun v => (v, countOcc xs v))).foldr insertByCount []

/-- Python list indexing: `IndexError` out of range. -/
def pyGet {α : Type} (xs : List α) (i : Nat) : Except PyError α :=
  match xs.get? i with
  | some x => .ok x
  | none => .error (.indexError indexOutOfRangeMsg)

/-- One iteration of the rendering loop:
`df[category[i]].value_counts().plot(kind=kind[i], …, title=title[i])`. -/
def renderPanel (df : DataFrame) (category kind title : List String)
    (i : Nat) : Except PyError Panel :=
  match pyGet category i with
  | .error e => .error e
  | .ok cat =>
    match df.getCol cat with
    | none => .error (.keyError cat)
    | some col =>
      match pyGet kind i with
      | .error e => .error e
      | .ok k =>
        match pyGet title i with
        | .error e => .error e
        | .ok t => .ok ⟨value_counts col.values, k, t⟩

/-- The `for i in range(len(category))` rendering loop. -/
def renderLoop (df : DataFrame) (category kind title : List String) :
    List Nat → Except PyError (List Panel)
  | [] => .ok []
  | i :: is =>
    match renderPanel df category kind title i with
    | .error e => .error e
    | .ok p =>
      match renderLoop df category kind title is with
      | .error e => .error e
      | .ok ps => .ok (p :: ps)

/-- Function `display`: validate that every requested category is a column
(`KeyError` listing all missing ones), then that every requested kind
is allowed (`KeyError` listing all invalid ones), then render one panel
per category. -/
def display (df : DataFrame) (category kind title : List String) :
    Except PyError (List Panel) :=
  if category.any (fun cat => !(df.hasCol cat)) then
    .error (.keyError (missingColsMsg
      (category.filter (fun cat => !(df.hasCol cat)))))
  else if kind.any (fun k => !(allowed_kinds.contains k)) then
    .error (.keyError (invalidKindsMsg
      (kind.filter (fun k => !(allowed_kinds.contains k)))))
  else
    renderLoop df category kind title (List.range category.length)

/-- Decidable equality on `Except`, so that concrete runs of the
modelled functions can be checked by `decide`. -/
instance {ε α : Type} [DecidableEq ε] [DecidableEq α] :
    DecidableEq (Except ε α) := fun x y =>
  match x, y with
  | .error e, .error f =>
    if h : e = f then .isTrue (h ▸ rfl)
    else .isFalse (fun hh => h (by cases hh; rfl))
  | .error _, .ok _ => .isFalse (fun hh => Except.noConfusion hh)
  | .ok _, .error _ => .isFalse (fun hh => Except.noConfusion hh)
  | .ok a, .ok b =>
    if h : a = b then .isTrue (h ▸ rfl)
    else .isFalse (fun hh => h (by cases hh; rfl))

/-! ## Helper lemmas -/

/-- Indexing commutes with `List.map`. -/
theorem listGetMap {α β : Type} (f : α → β) (l : List α) (i : Nat) :
    (l.map f).get? i = (l.get? i).map f := by
  induction l generalizing i with
  | nil => cases i <;> rfl
  | cons a t ih =>
    cases i with
    | zero => rfl
    | succ j => exact ih j

/-- Inversion of a successful `extract_parts` run: the input had a
datetime-typed `timestamp` column and the output is the derived table
built from its values. -/
theorem extract_parts_ok_shape (df out : DataFrame)
    (hx : extract_parts df = .ok out) :
    ∃ c, df.getCol tsName = some c ∧ c.dtype = Dtype.ddatetime ∧
      out = extractResult c.values := by
  unfold extract_parts at hx
  split at hx
  · cases hx
  · rename_i c hgc
    split at hx
    · rename_i hd
      injection hx with h
      exact ⟨c, hgc, hd, h.symm⟩
    · cases hx

/-! ## Claim theorems -/

/-- C1: whenever the synthetic generator's timestamp construction
(`pd.date_range`) fails, `create_periodic_dataframe` catches the error,
prints a log message, and implicitly returns no table instead of
raising. -/
theorem create_periodic_catches_errors (start : String) (periods : Int)
    (freq : String) (m : String)
    (h : date_range start periods freq = .error m) :
    create_periodic_dataframe start periods freq
      = (none, [createErrHead ++ m]) := by
  unfold create_periodic_dataframe
  rw [h]

/-- Witness for C1: an unparseable start point makes the generator log
and return no table. -/
theorem create_periodic_catches_errors_witness :
    create_periodic_dataframe ("oops") 5 ("14h")
      = (none, [createErrHead ++ invalidStartMsg]) :=
  create_periodic_catches_errors ("oops") 5 ("14h") invalidStartMsg
    (by decide)

/-- C8: generating 15 timestamps from 2025-09-16 02:35:00 with step
14h and running normalize + extract yields 15 rows, 8 columns, and a
first-row weekday_name of `Tue`. -/
theorem synthetic_example_scenario :
    ((create_periodic_dataframe ("2025-09-16 02:35:00") 15 ("14h")).1.map
      (fun df1 =>
        ((convert_to_datetime df1).bind extract_parts).map
          (fun out =>
            (out.nRows, out.cols.length,
              (out.getCol ("weekday_name")).map
                (fun c => c.values.get? 0)))))
    = some (.ok (15, 8, some (some (Cell.cstr ("Tue"))))) := by
  decide

/-- C9: `display` never compares the kind and title list lengths with
the category list length: on a call whose categories and kinds all pass
validation but whose kind list is shorter than the category list, the
rendering loop fails with an out-of-bounds `IndexError`, not one of the
typed validation errors. -/
theorem display_unchecked_length_mismatch :
    (DataFrame.mk [⟨("day"), .dint, [Cell.cnat 1]⟩]).hasCol ("day") = true
    ∧ allowed_kinds.contains ("bar") = true
    ∧ display (DataFrame.mk [⟨("day"), .dint, [Cell.cnat 1]⟩])
        [("day"), ("day")] [("bar")] [("t1"), ("t2")]
      = .error (.indexError indexOutOfRangeMsg) := by
  decide

/-- C2: in every table produced by `extract_parts`, the weekday column
uses the Monday = 0 through Sunday = 6 numbering, and `is_weekend` is 1
at a row exactly when that row's weekday is 5 or 6 (the week
2025-09-15 … 2025-09-21 ran Monday through Sunday). -/
theorem extract_weekend_flag (df out : DataFrame) (wc bc : Col)
    (i w : Nat)
    (hx : extract_parts df = .ok out)
    (hw : out.getCol ("weekday") = some wc)
    (hb : out.getCol ("is_weekend") = some bc)
    (hi : wc.values.get? i = some (Cell.cnat w)) :
    (bc.values.get? i = some (Cell.cnat 1) ↔ (w = 5 ∨ w = 6))
    ∧ (bc.values.get? i = some (Cell.cnat 0) ↔ ¬(w = 5 ∨ w = 6))
    ∧ dayofweek ⟨2025, 9, 15, 0, 0, 0⟩ = 0
    ∧ dayofweek ⟨2025, 9, 16, 0, 0, 0⟩ = 1
    ∧ dayofweek ⟨2025, 9, 17, 0, 0, 0⟩ = 2
    ∧ dayofweek ⟨2025, 9, 18, 0, 0, 0⟩ = 3
    ∧ dayofweek ⟨2025, 9, 19, 0, 0, 0⟩ = 4
    ∧ dayofweek ⟨2025, 9, 20, 0, 0, 0⟩ = 5
    ∧ dayofweek ⟨2025, 9, 21, 0, 0, 0⟩ = 6 := by
  obtain ⟨c, hgc, hd, rfl⟩ := extract_parts_ok_shape df out hx
  have hw2 : (extractResult c.values).getCol ("weekday")
      = some ⟨("weekday"), .dint,
          c.values.map (fun v => Cell.cnat (dayofweek (cellDT v)))⟩ := rfl
  have hb2 : (extractResult c.values).getCol ("is_weekend")
      = some ⟨("is_weekend"), .dint,
          (c.values.map (fun v => Cell.cnat (dayofweek (cellDT v)))).map
            (fun v => Cell.cnat
              (if v == Cell.cnat 5 || v == Cell.cnat 6 then 1 else 0))⟩ :=
    rfl
  have hwc := Option.some.inj (hw2.symm.trans hw)
  have hbc := Option.some.inj (hb2.symm.trans hb)
  subst hwc
  subst hbc
  refine ⟨?_, ?_, by decide, by decide, by decide, by decide, by decide,
    by decide, by decide⟩
  all_goals
    simp only [listGetMap] at hi ⊢
    rw [hi]
    by_cases h5 : w = 5
    · subst h5; simp
    · by_cases h6 : w = 6
      · subst h6; simp
      · simp [h5, h6]

/-- Witness for C2: a single Saturday timestamp has weekday 5 and
is_weekend 1. -/
theorem extract_weekend_flag_witness :
    ((Col.mk ("is_weekend") .dint [Cell.cnat 1]).values.get? 0
        = some (Cell.cnat 1) ↔ ((5 : Nat) = 5 ∨ (5 : Nat) = 6))
    ∧ ((Col.mk ("is_weekend") .dint [Cell.cnat 1]).values.get? 0
        = some (Cell.cnat 0) ↔ ¬((5 : Nat) = 5 ∨ (5 : Nat) = 6))
    ∧ dayofweek ⟨2025, 9, 15, 0, 0, 0⟩ = 0
    ∧ dayofweek ⟨2025, 9, 16, 0, 0, 0⟩ = 1
    ∧ dayofweek ⟨2025, 9, 17, 0, 0, 0⟩ = 2
    ∧ dayofweek ⟨2025, 9, 18, 0, 0, 0⟩ = 3
    ∧ dayofweek ⟨2025, 9, 19, 0, 0, 0⟩ = 4
    ∧ dayofweek ⟨2025, 9, 20, 0, 0, 0⟩ = 5
    ∧ dayofweek ⟨2025, 9, 21, 0, 0, 0⟩ = 6 :=
  extract_weekend_flag
    ⟨[⟨tsName, .ddatetime, [Cell.cdt ⟨2025, 9, 20, 0, 0, 0⟩]⟩]⟩
    (extractResult [Cell.cdt ⟨2025, 9, 20, 0, 0, 0⟩])
    ⟨("weekday"), .dint, [Cell.cnat 5]⟩
    ⟨("is_weekend"), .dint, [Cell.cnat 1]⟩ 0 5
    (by decide) (by decide) (by decide) (by decide)

/-- C3: in every table produced by `extract_parts`, the quarter column
equals the ceiling of month / 3: quarter 1 for months 1–3, 2 for 4–6,
3 for 7–9 and 4 for 10–12. -/
theorem extract_quarter (df out : DataFrame) (mc qc : Col) (i m : Nat)
    (hx : extract_parts df = .ok out)
    (hm : out.getCol ("month") = some mc)
    (hq : out.getCol ("quarter") = some qc)
    (hi : mc.values.get? i = some (Cell.cnat m))
    (h1 : 1 ≤ m) :
    qc.values.get? i = some (Cell.cnat ((m + 2) / 3))
    ∧ (m ≤ 3 → qc.values.get? i = some (Cell.cnat 1))
    ∧ (4 ≤ m → m ≤ 6 → qc.values.get? i = some (Cell.cnat 2))
    ∧ (7 ≤ m → m ≤ 9 → qc.values.get? i = some (Cell.cnat 3))
    ∧ (10 ≤ m → m ≤ 12 → qc.values.get? i = some (Cell.cnat 4)) := by
  obtain ⟨c, hgc, hd, rfl⟩ := extract_parts_ok_shape df out hx
  have hm2 : (extractResult c.values).getCol ("month")
      = some ⟨("month"), .dint,
          c.values.map (fun v => Cell.cnat (cellDT v).month)⟩ := rfl
  have hq2 : (extractResult c.values).getCol ("quarter")
      = some ⟨("quarter"), .dint,
          c.values.map (fun v => Cell.cnat (quarterOf (cellDT v)))⟩ := rfl
  have hmc := Option.some.inj (hm2.symm.trans hm)
  have hqc := Option.some.inj (hq2.symm.trans hq)
  subst hmc
  subst hqc
  simp only [listGetMap] at hi ⊢
  cases hts : (c.values.get? i) with
  | none => rw [hts] at hi; cases hi
  | some v =>
    rw [hts] at hi
    have hmv : (cellDT v).month = m := by
      have := Option.some.inj hi
      exact Cell.cnat.inj this
    have key : quarterOf (cellDT v) = (m - 1) / 3 + 1 := by
      unfold quarterOf; rw [hmv]
    refine ⟨?_, ?_, ?_, ?_, ?_⟩
    · have h3 : (m - 1) / 3 + 1 = (m + 2) / 3 := by omega
      simp only [Option.map_some', key, h3]
    · intro hm3
      have h3 : (m - 1) / 3 + 1 = 1 := by omega
      simp only [Option.map_some', key, h3]
    · intro hm4 hm6
      have h3 : (m - 1) / 3 + 1 = 2 := by omega
      simp only [Option.map_some', key, h3]
    · intro hm7 hm9
      have h3 : (m - 1) / 3 + 1 = 3 := by omega
      simp only [Option.map_some', key, h3]
    · intro hm10 hm12
      have h3 : (m - 1) / 3 + 1 = 4 := by omega
      simp only [Option.map_some', key, h3]

/-- Witness for C3: a May timestamp (month 5) lands in quarter 2. -/
theorem extract_quarter_witness :
    (Col.mk ("quarter") .dint [Cell.cnat 2]).values.get? 0
        = some (Cell.cnat (((5 : Nat) + 2) / 3))
    ∧ ((5 : Nat) ≤ 3 → (Col.mk ("quarter") .dint [Cell.cnat 2]).values.get? 0
        = some (Cell.cnat 1))
    ∧ (4 ≤ (5 : Nat) → (5 : Nat) ≤ 6 →
        (Col.mk ("quarter") .dint [Cell.cnat 2]).values.get? 0
          = some (Cell.cnat 2))
    ∧ (7 ≤ (5 : Nat) → (5 : Nat) ≤ 9 →
        (Col.mk ("quarter") .dint [Cell.cnat 2]).values.get? 0
          = some (Cell.cnat 3))
    ∧ (10 ≤ (5 : Nat) → (5 : Nat) ≤ 12 →
        (Col.mk ("quarter") .dint [Cell.cnat 2]).values.get? 0
          = some (Cell.cnat 4)) :=
  extract_quarter
    ⟨[⟨tsName, .ddatetime, [Cell.cdt ⟨2025, 5, 1, 0, 0, 0⟩]⟩]⟩
    (extractResult [Cell.cdt ⟨2025, 5, 1, 0, 0, 0⟩])
    ⟨("month"), .dint, [Cell.cnat 5]⟩
    ⟨("quarter"), .dint, [Cell.cnat 2]⟩ 0 5
    (by decide) (by decide) (by decide) (by decide) (by decide)

/-- C4: `extract_parts` on a well-formed normalized table returns a new
table with the same row count containing exactly the eight derived
columns, without the original timestamp column. -/
theorem extract_output_contract (df out : DataFrame)
    (hwf : df.wellFormed) (hx : extract_parts df = .ok out) :
    out.colNames = [("day"), ("month"), ("year"), ("hour"), ("quarter"),
      ("weekday"), ("weekday_name"), ("is_weekend")]
    ∧ out.colNames.contains tsName = false
    ∧ out.nRows = df.nRows := by
  obtain ⟨c, hgc, hd, rfl⟩ := extract_parts_ok_shape df out hx
  refine ⟨rfl, rfl, ?_⟩
  have hmem : c ∈ df.cols := List.mem_of_find?_eq_some hgc
  have hlen := hwf c hmem
  simp only [extractResult, DataFrame.nRows, List.length_map]
  exact hlen

/-- Witness for C4: the contract holds on a concrete two-row table. -/
theorem extract_output_contract_witness :
    (extractResult [Cell.cdt ⟨2025, 9, 20, 0, 0, 0⟩,
        Cell.cdt ⟨2025, 9, 21, 0, 0, 0⟩]).colNames
      = [("day"), ("month"), ("year"), ("hour"), ("quarter"),
         ("weekday"), ("weekday_name"), ("is_weekend")]
    ∧ (extractResult [Cell.cdt ⟨2025, 9, 20, 0, 0, 0⟩,
        Cell.cdt ⟨2025, 9, 21, 0, 0, 0⟩]).colNames.contains tsName = false
    ∧ (extractResult [Cell.cdt ⟨2025, 9, 20, 0, 0, 0⟩,
        Cell.cdt ⟨2025, 9, 21, 0, 0, 0⟩]).nRows
      = (DataFrame.mk [⟨tsName, .ddatetime,
          [Cell.cdt ⟨2025, 9, 20, 0, 0, 0⟩,
           Cell.cdt ⟨2025, 9, 21, 0, 0, 0⟩]⟩]).nRows :=
  extract_output_contract
    ⟨[⟨tsName, .ddatetime, [Cell.cdt ⟨2025, 9, 20, 0, 0, 0⟩,
        Cell.cdt ⟨2025, 9, 21, 0, 0, 0⟩]⟩]⟩
    (extractResult [Cell.cdt ⟨2025, 9, 20, 0, 0, 0⟩,
        Cell.cdt ⟨2025, 9, 21, 0, 0, 0⟩])
    (by unfold DataFrame.wellFormed; decide) (by decide)

/-- Parsing a column containing an unparseable value fails (at the
first such value, with the fixed message). -/
theorem to_datetime_vals_error (vs : List Cell)
    (h : ∃ v ∈ vs, toDatetimeCell v = none) :
    to_datetime_vals vs = .error unparseableMsg := by
  induction vs with
  | nil =>
    rcases h with ⟨v, hv, _⟩
    cases hv
  | cons a t ih =>
    rcases h with ⟨v, hv, hbad⟩
    cases hva : toDatetimeCell a with
    | none => simp only [to_datetime_vals, hva]
    | some d =>
      rcases List.mem_cons.mp hv with h1 | h2
      · subst h1
        rw [hva] at hbad
        exact Option.noConfusion hbad
      · have ht := ih ⟨v, h2, hbad⟩
        simp only [to_datetime_vals, hva, ht]

/-- If the first `timestamp`-named column fails to parse, the whole
column conversion fails. -/
theorem convertCols_error (cols : List Col) (c : Col)
    (hfind : cols.find? (fun x => x.name == tsName) = some c)
    (hbad : to_datetime_vals c.values = .error unparseableMsg) :
    convertCols cols = .error unparseableMsg := by
  induction cols with
  | nil => cases hfind
  | cons a t ih =>
    cases ha : (a.name == tsName) with
    | true =>
      simp only [List.find?, ha] at hfind
      have hac := Option.some.inj hfind
      subst hac
      simp [convertCols, ha, hbad]
    | false =>
      simp only [List.find?, ha] at hfind
      have ht := ih hfind
      simp [convertCols, ha, ht]

/-- C5: `convert_to_datetime` fails with `KeyError` when the timestamp
column is missing and with `ValueError` (all-or-nothing) when any value
cannot be parsed; `extract_parts` fails with `KeyError` when the column
is missing and with `TypeError` when it is not datetime-typed. -/
theorem pipeline_precondition_errors :
    (∀ df : DataFrame, df.getCol tsName = none →
      convert_to_datetime df = .error (.keyError missingTsMsg))
    ∧ (∀ (df : DataFrame) (c : Col), df.getCol tsName = some c →
      (∃ v ∈ c.values, toDatetimeCell v = none) →
      convert_to_datetime df
        = .error (.valueError (convErrHead ++ unparseableMsg)))
    ∧ (∀ df : DataFrame, df.getCol tsName = none →
      extract_parts df = .error (.keyError missingTsMsg))
    ∧ (∀ (df : DataFrame) (c : Col), df.getCol tsName = some c →
      ¬ c.dtype = Dtype.ddatetime →
      extract_parts df = .error (.typeError notDatetimeMsg)) := by
  refine ⟨?_, ?_, ?_, ?_⟩
  · intro df h
    simp only [convert_to_datetime, h]
  · intro df c hgc hbadv
    have hbad : to_datetime_vals c.values = .error unparseableMsg :=
      to_datetime_vals_error c.values hbadv
    have hcc : convertCols df.cols = .error unparseableMsg :=
      convertCols_error df.cols c hgc hbad
    simp only [convert_to_datetime, hgc, hcc]
  · intro df h
    simp only [extract_parts, h]
  · intro df c hgc hd
    simp only [extract_parts, hgc]
    rw [if_neg hd]

/-- Witness for C5: each of the four error cases fires on a concrete
table. -/
theorem pipeline_precondition_errors_witness :
    convert_to_datetime ⟨[]⟩ = .error (.keyError missingTsMsg)
    ∧ convert_to_datetime ⟨[⟨tsName, .dobject, [Cell.cstr ("oops")]⟩]⟩
        = .error (.valueError (convErrHead ++ unparseableMsg))
    ∧ extract_parts ⟨[]⟩ = .error (.keyError missingTsMsg)
    ∧ extract_parts ⟨[⟨tsName, .dobject, [Cell.cstr ("2025-01-01")]⟩]⟩
        = .error (.typeError notDatetimeMsg) :=
  ⟨pipeline_precondition_errors.1 ⟨[]⟩ (by decide),
   pipeline_precondition_errors.2.1
     ⟨[⟨tsName, .dobject, [Cell.cstr ("oops")]⟩]⟩
     ⟨tsName, .dobject, [Cell.cstr ("oops")]⟩ (by decide)
     ⟨Cell.cstr ("oops"), by decide, by decide⟩,
   pipeline_precondition_errors.2.2.1 ⟨[]⟩ (by decide),
   pipeline_precondition_errors.2.2.2
     ⟨[⟨tsName, .dobject, [Cell.cstr ("2025-01-01")]⟩]⟩
     ⟨tsName, .dobject, [Cell.cstr ("2025-01-01")]⟩ (by decide)
     (by decide)⟩

/-- C7 counterexample: a call whose kind list contains the invalid
`triangle` but whose category list also names a missing column fails
with the missing-columns `KeyError`, not the invalid-kinds one, so the
claim does not hold for every call with an invalid kind. -/
theorem display_kind_after_columns_counterexample :
    display ⟨[]⟩ [("x")] [("triangle")] [("t")]
      = .error (.keyError (missingColsMsg [("x")]))
    ∧ missingColsMsg [("x")] ≠ invalidKindsMsg [("triangle")] := by
  decide

/-- C7 (amended): on every call whose requested categories are all
columns of the table, an invalid requested kind makes `display` fail
with the invalid-kinds `KeyError` listing all invalid kinds — no panel
is rendered, even when other requested kinds are valid. -/
theorem display_invalid_kind (df : DataFrame)
    (category kind title : List String)
    (hcat : category.all (fun cat => df.hasCol cat) = true)
    (hbad : kind.any (fun k => !(allowed_kinds.contains k)) = true) :
    display df category kind title
      = .error (.keyError (invalidKindsMsg
          (kind.filter (fun k => !(allowed_kinds.contains k))))) := by
  have h1 : category.any (fun cat => !(df.hasCol cat)) = false := by
    rw [List.any_eq_false]
    intro x hx
    have hh := List.all_eq_true.mp hcat x hx
    simp [hh]
  unfold display
  rw [h1, hbad]
  rw [if_neg (by decide), if_pos rfl]

/-- Witness for C7 (amended): with a present category, one invalid and
one valid kind, only the invalid kind is reported. -/
theorem display_invalid_kind_witness :
    display ⟨[⟨("day"), .dint, []⟩]⟩ [("day")] [("triangle"), ("bar")] []
      = .error (.keyError (invalidKindsMsg [("triangle")])) :=
  display_invalid_kind ⟨[⟨("day"), .dint, []⟩]⟩ [("day")]
    [("triangle"), ("bar")] [] (by decide) (by decide)

/-- Splitting never yields an empty list of pieces. -/
theorem splitOnChar_ne_nil (sep : Char) (cs : List Char) :
    splitOnChar sep cs ≠ [] := by
  induction cs with
  | nil => simp [splitOnChar]
  | cons c cs ih =>
    simp only [splitOnChar]
    by_cases h : c = sep
    · simp [h]
    · rw [if_neg h]
      cases hr : splitOnChar sep cs with
      | nil => simp
      | cons hh t => simp

/-- A split with a single piece returns the input whole (the separator
does not occur). -/
theorem splitOnChar_singleton (sep : Char) (cs ys : List Char)
    (h : splitOnChar sep cs = [ys]) : ys = cs := by
  induction cs generalizing ys with
  | nil =>
    simp only [splitOnChar] at h
    injection h with h1 h2
    exact h1.symm
  | cons c cs ih =>
    simp only [splitOnChar] at h
    by_cases hc : c = sep
    · rw [if_pos hc] at h
      injection h with h1 h2
      exact absurd h2 (splitOnChar_ne_nil sep cs)
    · rw [if_neg hc] at h
      cases hr : splitOnChar sep cs with
      | nil => exact absurd hr (splitOnChar_ne_nil sep cs)
      | cons hh t =>
        rw [hr] at h
        injection h with h1 h2
        subst h2
        have hhc := ih hh hr
        subst h1
        rw [hhc]

/-- Every cell of every column produced by a successful `read_csv` is a
raw string. -/
theorem read_csv_cells_are_strings (content : String) (df : DataFrame)
    (h : read_csv content = .ok df) :
    ∀ c ∈ df.cols, c.dtype = Dtype.dobject
      ∧ ∀ v ∈ c.values, ∃ s, v = Cell.cstr s := by
  unfold read_csv at h
  split at h
  · cases h
  · split at h
    · cases h
    · injection h with h2
      subst h2
      intro c hc
      rcases List.mem_map.mp hc with ⟨j, hj, rfl⟩
      refine ⟨rfl, ?_⟩
      intro v hv
      rcases List.mem_map.mp hv with ⟨r, hr, rfl⟩
      exact ⟨_, rfl⟩

/-- C6: `load_dataframe_from_file` fails with the dedicated
file-not-found error on a missing path, with `ValueError` when the
content cannot be read as a table or does not have exactly one column,
and on success returns the single column renamed to `timestamp` with
its values still raw strings. -/
theorem load_from_file_contract :
    (∀ (fs : FileSystem) (path : String), fs.lookup path = none →
      load_dataframe_from_file fs path
        = .error (.fileNotFoundError (fileNotFoundMsg path)))
    ∧ (∀ (fs : FileSystem) (path content m : String),
      fs.lookup path = some content → read_csv content = .error m →
      load_dataframe_from_file fs path
        = .error (.valueError (readCsvErrHead ++ m)))
    ∧ (∀ (fs : FileSystem) (path content : String) (df0 : DataFrame),
      fs.lookup path = some content → read_csv content = .ok df0 →
      df0.cols.length ≠ 1 →
      load_dataframe_from_file fs path = .error (.valueError oneColumnMsg))
    ∧ (∀ (fs : FileSystem) (path content : String) (df0 : DataFrame),
      fs.lookup path = some content → read_csv content = .ok df0 →
      df0.cols.length = 1 →
      ∃ c : Col, load_dataframe_from_file fs path = .ok ⟨[c]⟩
        ∧ c.name = tsName
        ∧ ∀ v ∈ c.values, ∃ s, v = Cell.cstr s) := by
  refine ⟨?_, ?_, ?_, ?_⟩
  · intro fs path h
    simp only [load_dataframe_from_file, h]
  · intro fs path content m hlk hcsv
    simp only [load_dataframe_from_file, hlk, hcsv]
  · intro fs path content df0 hlk hcsv hne
    simp only [load_dataframe_from_file, hlk, hcsv]
    rw [if_pos hne]
  · intro fs path content df0 hlk hcsv hlen
    obtain ⟨c0, hc0⟩ := List.length_eq_one.mp hlen
    refine ⟨{ c0 with name := tsName }, ?_, rfl, ?_⟩
    · simp only [load_dataframe_from_file, hlk, hcsv]
      rw [if_neg (fun hh => hh hlen)]
      rw [hc0]
      rfl
    · intro v hv
      have hstr := read_csv_cells_are_strings content df0 hcsv c0
        (by rw [hc0]; exact List.mem_singleton_self c0)
      exact hstr.2 v hv

/-- Witness for C6: the four loader outcomes on concrete inputs. -/
theorem load_from_file_contract_witness :
    load_dataframe_from_file [] ("a.csv")
      = .error (.fileNotFoundError (fileNotFoundMsg ("a.csv")))
    ∧ load_dataframe_from_file [(("e.csv"), (""))] ("e.csv")
      = .error (.valueError
          (readCsvErrHead ++ ("No columns to parse from file")))
    ∧ load_dataframe_from_file [(("m.csv"), ("a,b"))] ("m.csv")
      = .error (.valueError oneColumnMsg)
    ∧ (∃ c : Col,
        load_dataframe_from_file [(("g.csv"), ("h\nv1"))] ("g.csv")
          = .ok ⟨[c]⟩
        ∧ c.name = tsName
        ∧ ∀ v ∈ c.values, ∃ s, v = Cell.cstr s) :=
  ⟨load_from_file_contract.1 [] ("a.csv") (by decide),
   load_from_file_contract.2.1 [(("e.csv"), (""))] ("e.csv") ("")
     ("No columns to parse from file") (by decide) (by decide),
   load_from_file_contract.2.2.1 [(("m.csv"), ("a,b"))] ("m.csv") ("a,b")
     ⟨[⟨("a"), .dobject, []⟩, ⟨("b"), .dobject, []⟩]⟩
     (by decide) (by decide) (by decide),
   load_from_file_contract.2.2.2 [(("g.csv"), ("h\nv1"))] ("g.csv")
     ("h\nv1") ⟨[⟨("h"), .dobject, [Cell.cstr ("v1")]⟩]⟩
     (by decide) (by decide) (by decide)⟩

/-- C10: the loader treats the first non-blank line of the file as a
header: a single-column file with n lines loads as a table of n - 1
rows holding the remaining lines, so the first line never appears as a
data row. -/
theorem load_header_consumed (fs : FileSystem) (path content : String)
    (l0 : List Char) (rest : List (List Char))
    (hfile : fs.lookup path = some content)
    (hlines : nonEmptyLines content = l0 :: rest)
    (h0 : (fieldsOf l0).length = 1)
    (hr : ∀ l ∈ rest, (fieldsOf l).length = 1) :
    load_dataframe_from_file fs path
      = .ok ⟨[⟨tsName, .dobject,
          rest.map (fun l => Cell.cstr (String.mk l))⟩]⟩
    ∧ (DataFrame.mk [⟨tsName, .dobject,
          rest.map (fun l => Cell.cstr (String.mk l))⟩]).nRows
      = (l0 :: rest).length - 1 := by
  constructor
  · have hany : (rest.any
        (fun r => (fieldsOf l0).length < (fieldsOf r).length)) = false := by
      rw [List.any_eq_false]
      intro r hrr
      have hlr := hr r hrr
      simp [h0, hlr]
    obtain ⟨n0, hn0⟩ := List.length_eq_one.mp h0
    have hn0l : n0 = l0 := splitOnChar_singleton _ _ _ hn0
    subst hn0l
    have hcell : (rest.map fieldsOf).map
          (fun r => Cell.cstr (String.mk (r.getD 0 [])))
        = rest.map (fun l => Cell.cstr (String.mk l)) := by
      rw [List.map_map]
      apply List.map_congr_left
      intro l hl
      obtain ⟨y, hy⟩ := List.length_eq_one.mp (hr l hl)
      have hyl : y = l := splitOnChar_singleton _ _ _ hy
      subst hyl
      simp [Function.comp, hy]
    have hcsv : read_csv content
        = .ok ⟨[⟨String.mk n0, .dobject,
            rest.map (fun l => Cell.cstr (String.mk l))⟩]⟩ := by
      simp only [read_csv, hlines]
      rw [hany]
      rw [if_neg Bool.false_ne_true]
      rw [h0]
      have hrange : List.range 1 = [0] := rfl
      rw [hrange]
      simp only [List.map_cons, List.map_nil]
      rw [hn0, hcell]
      rfl
    simp only [load_dataframe_from_file, hfile, hcsv]
    rw [if_neg (fun hh => hh rfl)]
    rfl
  · simp [DataFrame.nRows]

/-- Witness for C10: a three-line single-column file loads as two rows;
the first line is consumed as the header. -/
theorem load_header_consumed_witness :
    load_dataframe_from_file
        [(("f.csv"), ("2025-01-01\n2025-01-02\n2025-01-03"))] ("f.csv")
      = .ok ⟨[⟨tsName, .dobject,
          ([("2025-01-02").data, ("2025-01-03").data].map
            (fun l => Cell.cstr (String.mk l)))⟩]⟩
    ∧ (DataFrame.mk [⟨tsName, .dobject,
          ([("2025-01-02").data, ("2025-01-03").data].map
            (fun l => Cell.cstr (String.mk l)))⟩]).nRows
      = (("2025-01-01").data
          :: [("2025-01-02").data, ("2025-01-03").data]).length - 1 :=
  load_header_consumed
    [(("f.csv"), ("2025-01-01\n2025-01-02\n2025-01-03"))] ("f.csv")
    ("2025-01-01\n2025-01-02\n2025-01-03")
    (("2025-01-01").data) [("2025-01-02").data, ("2025-01-03").data]
    (by decide) (by decide) (by decide) (by decide)

end ChangeTimeseries
